import Mathlib

/-!
# Verification of the tcontainer reuse/run orchestration

Shallow embedding of the container-reuse state machine, configuration
compatibility checker, option construction, retry primitive and prune sweep
of the `tcontainer` Go package, together with proofs about the behaviour its
specification describes.

Go errors are modelled as a tree (`GoErr`): `fmt.Errorf` with a single `%w`
verb becomes `wrap`, `fmt.Errorf` with two `%w` verbs becomes `wrap2`,
`errors.Join` of two errors becomes `join`, and `backoff.Permanent` becomes
`permanent`.  `errors.Is` is the reflexive-transitive unwrapping match and
`errors.As` against `*backoff.PermanentError` is a search for a `permanent`
node.
-/

namespace Tcontainer

/-- Go error trees: sentinels, single/double `%w` wrapping, `errors.Join`,
and `backoff.Permanent` tagging. -/
inductive GoErr where
  | base (tag : String)
  | wrap (msg : String) (inner : GoErr)
  | wrap2 (msg : String) (first second : GoErr)
  | join (first second : GoErr)
  | permanent (inner : GoErr)
deriving DecidableEq, Repr

namespace GoErr

/-- `errors.Is(e, target)`: `e` equals `target` or some unwrapping of `e`
does.  `wrap2` and `join` expose both children, `permanent` exposes its
payload (`(*PermanentError).Unwrap`). -/
def is : GoErr → GoErr → Bool
  | e@(base _), t => e == t
  | e@(wrap _ inner), t => e == t || inner.is t
  | e@(wrap2 _ a b), t => e == t || a.is t || b.is t
  | e@(join a b), t => e == t || a.is t || b.is t
  | e@(permanent inner), t => e == t || inner.is t

/-- `errors.As(e, &(*backoff.PermanentError))`: some node of the tree is a
`backoff.Permanent` wrapper. -/
def isPermanent : GoErr → Bool
  | base _ => false
  | wrap _ inner => inner.isPermanent
  | wrap2 _ a b => a.isPermanent || b.isPermanent
  | join a b => a.isPermanent || b.isPermanent
  | permanent _ => true

end GoErr

/-- `errors.Is` lifted to Go's `error` values, where `none` is Go's `nil`. -/
def errIs : Option GoErr → GoErr → Bool
  | none, _ => false
  | some e, t => e.is t

/-! ## Error sentinels published by the package -/

/-- `ErrUnreusableState` — impossible to reuse the container in its state. -/
def ErrUnreusableState : GoErr := .base "imposible to reuse container with it's current state"

/-- `ErrReuseContainerConflict` — the existing container has different options. -/
def ErrReuseContainerConflict : GoErr := .base "imposible to reuse container, it has differnent options"

/-- `ErrInvalidOptions` — an invalid value was passed to an option. -/
def ErrInvalidOptions : GoErr := .base "invalid option"

/-- `ErrOptionConflict` — incompatible options were passed together. -/
def ErrOptionConflict : GoErr := .base "conflicted options"

/-- `ErrRetryTimeout` — the readiness probe kept failing for too long. -/
def ErrRetryTimeout : GoErr := .base "retry timeout"

/-- `ErrContainerAlreadyExists` — the container name is already taken. -/
def ErrContainerAlreadyExists : GoErr := .base "container already exists"

/-! ## Container lifecycle state (`docker.State` fields used by the code) -/

/-- The fields of the inspected `docker.State` that `checkContainerState`
and `repairForReuse` read. -/
structure ContainerState where
  status : String
  running : Bool
  paused : Bool
  restarting : Bool
  oomKilled : Bool
  dead : Bool
  removalInProgress : Bool
deriving DecidableEq, Repr

/-- `checkContainerState` (run.go): `nil` when the container is ready,
otherwise an error; `OOMKilled`/`Dead`/`RemovalInProgress` wrap the
`ErrUnreusableState` sentinel.  Branches follow the source `switch` order. -/
def checkContainerState (s : ContainerState) : Option GoErr :=
  if s.paused then some (.base "still paused")
  else if s.status == "exited" then some (.base "still exited")
  else if s.restarting then some (.base "still restarting")
  else if s.running then none
  else if s.oomKilled || s.dead || s.removalInProgress then
    some (.wrap "state string" ErrUnreusableState)
  else some (.base "unexpected Container.State")

/-- Is the classifier verdict a transient (retryable) failure: an error that
the reuse loop will retry, i.e. one that neither matches the
`ErrUnreusableState` sentinel nor carries a `backoff.Permanent` tag? -/
def isTransientErr : Option GoErr → Bool
  | none => false
  | some e => !e.is ErrUnreusableState && !e.isPermanent

/-! ## The reuse flow (`reuseContainer`, `repairForReuse` in run.go)

The docker daemon and the existing container are abstracted into a
`ReuseWorld`: whether the name lookup succeeds, the lifecycle-state snapshot
the `i`-th lookup observes, the (attempt-independent) results of the
configured compatibility checks, and the daemon's responses to the two
corrective calls.  `reuseContainer` additionally returns the list of
corrective actions issued and the number of attempts made, so that the
temporal claims about the flow are statable. -/

/-- A corrective action issued against the existing container. -/
inductive Action where
  | unpause
  | start
deriving DecidableEq, Repr

/-- The environment of one `reuseContainer` call. -/
structure ReuseWorld where
  /-- does `ContainerByName` find the container -/
  found : Bool
  /-- lifecycle-state snapshot observed by the `i`-th lookup -/
  stateAt : Nat → ContainerState
  /-- results of the `Reuse.ConfigChecks` predicates, in order; the existing
  container's configuration is immutable, so they do not vary per attempt -/
  configChecks : List (Option GoErr)
  /-- result of `client.UnpauseContainer` -/
  unpauseErr : Option GoErr
  /-- result of `client.StartContainer` -/
  startErr : Option GoErr

/-- The first failing compatibility check, mirroring the `for` loop over
`options.Reuse.ConfigChecks` that returns on the first error. -/
def firstConfigErr : List (Option GoErr) → Option GoErr
  | [] => none
  | none :: rest => firstConfigErr rest
  | some e :: _ => some e

/-- Result of one `try` closure invocation inside `reuseContainer`. -/
inductive TryResult where
  | ok
  | failed (e : GoErr)
deriving DecidableEq, Repr

/-- The `try` closure of `reuseContainer` (run.go): name lookup, then state
classification (permanent iff the error matches `ErrUnreusableState`), then
the compatibility checks (any failure permanent, tagged
`ErrReuseContainerConflict`). `i` indexes the lookup's state snapshot. -/
def tryReuse (w : ReuseWorld) (i : Nat) : TryResult :=
  if !w.found then
    .failed (.permanent (.base "failed to p.ContainerByName"))
  else
    match checkContainerState (w.stateAt i) with
    | some e =>
      let we := GoErr.wrap "failed to checkContainerState" e
      if we.is ErrUnreusableState then .failed (.permanent we) else .failed we
    | none =>
      match firstConfigErr w.configChecks with
      | some ce =>
        .failed (.permanent (.wrap2 "failed to checkContainerConfig" ErrReuseContainerConflict ce))
      | none => .ok

/-- `repairForReuse` (run.go): issue at most one corrective call decided by
the snapshot `s`, in the source's `switch` order (ready, Restarting, Paused,
exited, unusable, default).  Returns the error and the calls issued. -/
def repairForReuse (w : ReuseWorld) (s : ContainerState) : Option GoErr × List Action :=
  if checkContainerState s == none then (none, [])
  else if s.restarting then (none, [])
  else if s.paused then
    match w.unpauseErr with
    | some e => (some (.wrap "failed to UnpauseContainer" e), [.unpause])
    | none => (none, [.unpause])
  else if s.status == "exited" then
    match w.startErr with
    | some e => (some (.wrap "failed to StartContainer on `exited` status" e), [.start])
    | none => (none, [.start])
  else if s.oomKilled || s.dead || s.removalInProgress then
    (some (.permanent (.wrap "state string" ErrUnreusableState)), [])
  else (some (.base "unexpected Container.State"), [])

/-- The `backoff.Retry(ctx, try, ...)` loop: call `try` on fresh snapshots
until success, a permanent error, or the attempt budget is exhausted; the
last error is returned on exhaustion.  Returns the result and the number of
`try` invocations. -/
def retryLoop (w : ReuseWorld) : Nat → Nat → Option GoErr × Nat
  | _, 0 => (some (.base "retry budget empty"), 0)
  | i, fuel + 1 =>
    match tryReuse w i with
    | .ok => (none, 1)
    | .failed e =>
      if e.isPermanent then (some e, 1)
      else if fuel == 0 then (some e, 1)
      else
        let (r, used) := retryLoop w (i + 1) fuel
        (r, used + 1)

/-- Outcome of a `reuseContainer` call: the returned error (`none` means the
existing container was reused), the corrective actions issued, and how many
`try` attempts ran. -/
structure ReuseOutcome where
  result : Option GoErr
  actions : List Action
  attempts : Nat
deriving DecidableEq, Repr

/-- `reuseContainer` (run.go): first `try`; on immediate success return; on a
permanent failure return it; otherwise call `repairForReuse` once on the
pre-check snapshot and enter the backoff retry loop, which issues no further
corrective action. -/
def reuseContainer (w : ReuseWorld) (budget : Nat) : ReuseOutcome :=
  match tryReuse w 0 with
  | .ok => ⟨none, [], 1⟩
  | .failed e =>
    if e.isPermanent then ⟨some e, [], 1⟩
    else
      let (repairErr, acts) := repairForReuse w (w.stateAt 0)
      match repairErr with
      | some re => ⟨some (.wrap "failed to repairForReuse" re), acts, 1⟩
      | none =>
        let (r, used) := retryLoop w 1 budget
        ⟨r.map (GoErr.wrap "failed to retry after repairForReuse"), acts, 1 + used⟩

/-! ## Concrete snapshots and worlds used as witnesses -/

/-- A running container snapshot. -/
def runningSnapshot : ContainerState :=
  ⟨"running", true, false, false, false, false, false⟩

/-- A paused container snapshot (docker reports `Running` and `Paused` both
set while paused). -/
def pausedSnapshot : ContainerState :=
  ⟨"paused", true, true, false, false, false, false⟩

/-- An exited container snapshot. -/
def exitedSnapshot : ContainerState :=
  ⟨"exited", false, false, false, false, false, false⟩

/-- An OOM-killed, no longer running container snapshot. -/
def oomSnapshot : ContainerState :=
  ⟨"dead", false, false, false, true, false, false⟩

/-- A paused existing container that is compatible with the candidate
request; it stays paused until unpaused, after which it runs. -/
def pausedWorld : ReuseWorld where
  found := true
  stateAt := fun i => if i = 0 then pausedSnapshot else runningSnapshot
  configChecks := [none]
  unpauseErr := none
  startErr := none

/-- The state-check error `try` produces on `pausedWorld`'s first attempt. -/
def pausedTryErr : GoErr := .wrap "failed to checkContainerState" (.base "still paused")

/-- A paused existing container whose configuration conflicts with the
candidate request (the image check fails). -/
def conflictingPausedWorld : ReuseWorld where
  found := true
  stateAt := fun _ => pausedSnapshot
  configChecks := [some (.base "other image")]
  unpauseErr := none
  startErr := none

/-- A running existing container whose configuration conflicts with the
candidate request. -/
def conflictingRunningWorld : ReuseWorld where
  found := true
  stateAt := fun _ => runningSnapshot
  configChecks := [some (.base "other image")]
  unpauseErr := none
  startErr := none

/-! ## Default configuration compatibility check (part_003) -/

/-- A `docker.PortBinding`: host IP and host port. -/
structure PortBinding where
  hostIP : String
  hostPort : String
deriving DecidableEq, Repr

/-- The fields of the existing container the default check reads: image,
exposed-port set (keys of `Config.ExposedPorts`) and the port-binding map
(`HostConfig.PortBindings`), as association lists. -/
structure ContainerConfig where
  image : String
  exposedPorts : List String
  portBindings : List (String × List PortBinding)
deriving DecidableEq, Repr

/-- The candidate `RunOptions` fields involved in (or deliberately excluded
from) the default check. -/
structure CandidateOptions where
  repository : String
  tag : String
  env : List String
  cmd : List String
  exposedPorts : List String
  portBindings : List (String × List PortBinding)
deriving DecidableEq, Repr

/-- The error when the images differ (a leaf: the Go code formats it without
wrapping a sentinel). -/
def imageMismatchErr (oldImage newImage : String) : GoErr :=
  .base ("other image - " ++ oldImage ++ " (old) instead of " ++ newImage ++ " (new)")

/-- The error when a candidate exposed port is missing (a leaf). -/
def exposedPortErr (port : String) : GoErr :=
  .base ("old container does not have exposed port " ++ port)

/-- `checkPortBindings` (part_003): for every candidate port binding entry,
the existing container must have the same container port and, for each
requested binding, at least one equal binding; extra entries in the existing
container are ignored.  Errors wrap `ErrReuseContainerConflict`. -/
def checkPortBindings :
    List (String × List PortBinding) → List (String × List PortBinding) → Option GoErr
  | [], _ => none
  | (port, expBindings) :: rest, actual =>
    match actual.lookup port with
    | none => some (.wrap ("not found binding for port " ++ port) ErrReuseContainerConflict)
    | some actualBindings =>
      match expBindings.find? (fun b => !actualBindings.contains b) with
      | some _ =>
        some (.wrap ("not found port binding for port " ++ port) ErrReuseContainerConflict)
      | none => checkPortBindings rest actual

/-- `defaultContainerConfigCheck` (part_003): image equality, then exposed
ports, then port bindings, short-circuiting; env and cmd are skipped. -/
def defaultContainerConfigCheck (c : ContainerConfig) (o : CandidateOptions) : Option GoErr :=
  let expectImage := o.repository ++ ":" ++ o.tag
  if c.image != expectImage then some (imageMismatchErr c.image expectImage)
  else
    match o.exposedPorts.find? (fun p => !c.exposedPorts.contains p) with
    | some p => some (exposedPortErr p)
    | none =>
      match checkPortBindings o.portBindings c.portBindings with
      | some e => some (.wrap "failed to checkPortBindings" e)
      | none => none

/-- An existing busybox container with one exposed port and two bindings
for it. -/
def sampleContainerConfig : ContainerConfig where
  image := "busybox:latest"
  exposedPorts := ["80/tcp"]
  portBindings := [("80/tcp", [⟨"0.0.0.0", "8080"⟩, ⟨"0.0.0.0", "8081"⟩])]

/-- A candidate request compatible with `sampleContainerConfig` (it asks for
a subset of the bindings). -/
def sampleCandidate : CandidateOptions where
  repository := "busybox"
  tag := "latest"
  env := ["A=1"]
  cmd := ["sh"]
  exposedPorts := ["80/tcp"]
  portBindings := [("80/tcp", [⟨"0.0.0.0", "8080"⟩])]

/-- The same candidate with a different image tag. -/
def mismatchCandidate : CandidateOptions := { sampleCandidate with tag := "1.36" }

/-! ## `reuseOrRecreateContainer` (run.go) -/

/-- `reuseOrRecreateContainer` (run.go): on reuse success pass the container
through; on reuse failure with `RecreateOnErr` unset wrap the reuse error;
with it set, recreate, and on recreation failure return
`errors.Join(err, recreateErr)` — where, mirroring the source line
`recreateErr = fmt.Errorf("failed to recreateContainer after reuseContainer err: %w", err)`,
the joined second component wraps the reuse error `err` again and the actual
recreation error is dropped. -/
def reuseOrRecreateContainer (reuseErr recreateErr : Option GoErr) (recreateOnErr : Bool) :
    Option GoErr :=
  match reuseErr with
  | none => none
  | some e =>
    if recreateOnErr then
      let err := GoErr.wrap "failed to reuseContainer" e
      match recreateErr with
      | some _ =>
        let recreateErr2 := GoErr.wrap "failed to recreateContainer after reuseContainer err" err
        some (.join err recreateErr2)
      | none => none
    else some (.wrap "failed to reuseContainer" e)

/-! ## The readiness-probe phase of `run` (run.go) and of the deprecated
`newWithPool` (part_001)

The probe operation is a function from the attempt index to its result, and
the backoff schedule is abstracted into an attempt budget. -/

/-- `backoff.Retry` (v5) driving the readiness probe in `run`: run the probe
until it succeeds or the budget is exhausted; the last probe error is
returned on exhaustion. -/
def probeRetryV5 (op : Nat → Option GoErr) : Nat → Nat → Option GoErr
  | _, 0 => some (.base "retry budget empty")
  | i, fuel + 1 =>
    match op i with
    | none => none
    | some e => if fuel == 0 then some e else probeRetryV5 op (i + 1) fuel

/-- The probe phase of `run` (run.go): on retry failure purge the container
and return the error wrapped "failed to retry".  Returns the error and
whether the container was purged. -/
def runProbePhase (op : Nat → Option GoErr) (budget : Nat) : Option GoErr × Bool :=
  match probeRetryV5 op 0 budget with
  | none => (none, false)
  | some e => (some (.wrap "failed to retry" e), true)

/-- `backoff.Retry` (v4) as used by the deprecated `newWithPool` (part_001):
returns the final error and whether the budget was exhausted (afterwards
`NextBackOff() == backoff.Stop`).  A `backoff.Permanent` probe error stops
the loop without exhausting the budget. -/
def probeRetryV4 (op : Nat → Option GoErr) : Nat → Nat → Option GoErr × Bool
  | _, 0 => (some (.base "retry budget empty"), true)
  | i, fuel + 1 =>
    match op i with
    | none => (none, false)
    | some e =>
      if e.isPermanent then (some e, false)
      else if fuel == 0 then (some e, true)
      else probeRetryV4 op (i + 1) fuel

/-- The probe phase of the deprecated `newWithPool` (part_001): on error
purge the container, wrap with the `ErrRetryTimeout` sentinel when the
budget was exhausted, then wrap "failed to backoff.Retry". -/
def newWithPoolProbePhase (op : Nat → Option GoErr) (budget : Nat) : Option GoErr × Bool :=
  match probeRetryV4 op 0 budget with
  | (none, _) => (none, false)
  | (some e, exhausted) =>
    let e2 := if exhausted then GoErr.wrap2 "retry timeout" ErrRetryTimeout e else e
    (some (.wrap "failed to backoff.Retry" e2), true)

/-! ## The bounded-retry primitive (internal/retry/retry.go) -/

/-- The loop inside `retry.Retry`: the Go locals `err` and `prevErr`; each
closure call first sets `prevErr` to the previous `err`, then runs the
operation.  Returns the final error and `prevErr` at exit.  A
`backoff.Permanent` operation error stops the loop early, exactly as
`backoff.Retry` (v4) does. -/
def retryGoLoop (op : Nat → Option GoErr) : Option GoErr → Nat → Nat → Option GoErr × Option GoErr
  | prev, _, 0 => (none, prev)
  | prev, i, fuel + 1 =>
    match op i with
    | none => (none, prev)
    | some e =>
      if e.isPermanent then (some e, prev)
      else if fuel == 0 then (some e, prev)
      else retryGoLoop op (some e) (i + 1) fuel

/-- `retry.Retry` (internal/retry/retry.go): runs the operation under the
backoff; on failure, when a previous attempt also failed, returns
`fmt.Errorf("%w; previous error: %w", err, prevErr)`. -/
def retryJoin (op : Nat → Option GoErr) (budget : Nat) : Option GoErr :=
  match retryGoLoop op none 0 budget with
  | (none, _) => none
  | (some e, none) => some e
  | (some e, some p) => some (.wrap2 "previous error" e p)

/-! ## The prune sweep (part_004) -/

/-- `errors.Join(err, e)` where `err` may still be Go `nil`. -/
def joinErr : Option GoErr → GoErr → GoErr
  | none, e => e
  | some acc, e => .join acc e

/-- What one prune sub-sweep leaves behind: the mutex-guarded accumulated
error variable, the value the function actually returns, and the removal
calls it issued. -/
structure PruneSweepOutcome where
  accumulated : Option GoErr
  returned : Option GoErr
  removed : List String
deriving DecidableEq, Repr

/-- `pruneContainers` / `pruneImages` (part_004): list the resources, issue
a forced removal for every one of them (the goroutines all run; a failure
stops none of the others), accumulate removal errors into the named return
`err` under the mutex — and then end with the literal statement
`return nil`, so the accumulated value is not what the caller receives. -/
def pruneSweep (listRes : Except GoErr (List String)) (removeErr : String → Option GoErr) :
    PruneSweepOutcome :=
  match listRes with
  | .error e => ⟨none, some (.wrap "failed to ListContainers" e), []⟩
  | .ok ids =>
    let acc := ids.foldl
      (fun acc cid =>
        match removeErr cid with
        | none => acc
        | some e => some (joinErr acc (.wrap ("failed to RemoveContainer " ++ cid) e)))
      none
    ⟨acc, none, ids⟩

/-- The value the goroutines of `Prune` (part_004) accumulate into its named
return `err` from the two sub-sweep results. -/
def pruneAccumulate (containersRet imagesRet : Option GoErr) : Option GoErr :=
  let acc : Option GoErr :=
    match containersRet with
    | some e => some (joinErr none (.wrap "failed to pruneContainers" e))
    | none => none
  match imagesRet with
  | some e => some (joinErr acc (.wrap "failed to pruneImages" e))
  | none => acc

/-- `Prune` (part_004): waits for both sub-sweeps, lets them accumulate into
the named return `err`, and then ends with the literal statement
`return nil`.  Returns (accumulated `err` variable, returned value). -/
def PruneModel (containersRet imagesRet : Option GoErr) : Option GoErr × Option GoErr :=
  (pruneAccumulate containersRet imagesRet, none)

/-! ## Option construction (`ApplyRunOptions`, `validate` in part_003) -/

/-- The `RunOptions` fields the construction claims concern.  The zero value
of this structure corresponds to Go's zero `RunOptions` on these fields. -/
structure RunOptionsModel where
  repository : String
  tag : String
  name : String
  env : List String
  exposedPorts : List String
  labels : List (String × String)
  reuse : Bool
  recreateOnErr : Bool
  removeOnExists : Bool
  containerExpirySeconds : Nat
deriving DecidableEq, Repr

/-- Go's zero `RunOptions` (restricted to the modelled fields). -/
def zeroRunOptions : RunOptionsModel :=
  ⟨"", "", "", [], [], [], false, false, false, 0⟩

/-- `getDefault` (part_003): the default baseline the options mutate. -/
def defaultRunOptions (repository : String) : RunOptionsModel where
  repository := repository
  tag := "latest"
  name := ""
  env := []
  exposedPorts := []
  labels := [("tcontainer", "tcontainer")]
  reuse := false
  recreateOnErr := false
  removeOnExists := false
  containerExpirySeconds := 60

/-- A `RunOption`: a fallible mutation of the options under construction. -/
def RunOptionFn : Type := RunOptionsModel → Except GoErr RunOptionsModel

/-- The `for` loop of `ApplyRunOptions`: apply each option in order,
stopping at the first error. -/
def applyOpts : RunOptionsModel → List RunOptionFn → Except GoErr RunOptionsModel
  | o, [] => .ok o
  | o, f :: fs =>
    match f o with
    | .error e => .error e
    | .ok o2 => applyOpts o2 fs

/-- `validate` (part_003): repository required, then the
`RemoveOnExists`/`Reuse` conflict. -/
def validateRunOptions (o : RunOptionsModel) : Option GoErr :=
  if o.repository == "" then some (.wrap "repository is required" ErrInvalidOptions)
  else if o.removeOnExists && o.reuse then
    some (.wrap "RemoveOnExists conflicts with Reuse" ErrOptionConflict)
  else none

/-- `ApplyRunOptions` (part_003): defaults, the options in order, then
validation; any failure returns the zero `RunOptions` with the error. -/
def ApplyRunOptions (repository : String) (customOpts : List RunOptionFn) :
    RunOptionsModel × Option GoErr :=
  match applyOpts (defaultRunOptions repository) customOpts with
  | .error e => (zeroRunOptions, some e)
  | .ok o =>
    match validateRunOptions o with
    | some e => (zeroRunOptions, some (.wrap "failed to options.validate" e))
    | none => (o, none)

/-- `Pool.Run` (run.go): construct the options; on failure return the
wrapped construction error before any container operation (the continuation
`runPhase`, which reports the container operations it performs, never
runs). -/
def RunEntry (repository : String) (customOpts : List RunOptionFn)
    (runPhase : RunOptionsModel → Option GoErr × List String) : Option GoErr × List String :=
  match ApplyRunOptions repository customOpts with
  | (_, some e) => (some (.wrap "failed to applyTestContainerOptions" e), [])
  | (o, none) => runPhase o

/-! ## Concrete operations used as witnesses -/

/-- A readiness probe that fails on every attempt with a distinct error. -/
def probeWitnessErrs : Nat → GoErr := fun i => .base ("probe attempt " ++ Nat.repr i)

/-- The probe operation built from `probeWitnessErrs`. -/
def probeWitnessOp : Nat → Option GoErr := fun i => some (probeWitnessErrs i)

/-- A retried operation that fails on every attempt with a distinct error. -/
def retryWitnessErrs : Nat → GoErr := fun i => .base ("try " ++ Nat.repr i)

/-- The operation built from `retryWitnessErrs`. -/
def retryWitnessOp : Nat → Option GoErr := fun i => some (retryWitnessErrs i)

/-- An operation that fails transiently once, then succeeds. -/
def retrySuccOp : Nat → Option GoErr := fun i => if i = 0 then some (.base "transient") else none

/-- A removal-call responder that rejects container c1 only. -/
def pruneWitnessRemoveErr : String → Option GoErr :=
  fun cid => if cid == "c1" then some (.base "removal denied") else none

/-- A run option that turns on `Reuse.Reuse`. -/
def setReuseOpt : RunOptionFn := fun o => .ok { o with reuse := true }

/-- A run option that turns on `RemoveOnExists`. -/
def setRemoveOnExistsOpt : RunOptionFn := fun o => .ok { o with removeOnExists := true }

/-- A run option that fails, like `WithImageTag ""` does. -/
def failingOpt : RunOptionFn :=
  fun _ => .error (.wrap "imageTag must not be empty" ErrInvalidOptions)

/-! ## Helper lemmas -/

@[simp] theorem GoErr.is_self (e : GoErr) : e.is e = true := by
  cases e <;> simp [GoErr.is]

theorem repairForReuse_actions_restarting (w : ReuseWorld) (s : ContainerState)
    (h : s.restarting = true) : (repairForReuse w s).2 = [] := by
  unfold repairForReuse checkContainerState
  by_cases hp : s.paused = true <;> simp [hp, h]

theorem repairForReuse_actions_paused (w : ReuseWorld) (s : ContainerState)
    (hr : s.restarting = false) (hp : s.paused = true) :
    (repairForReuse w s).2 = [Action.unpause] := by
  unfold repairForReuse checkContainerState
  cases w.unpauseErr <;> simp [hp, hr]

theorem repairForReuse_actions_exited (w : ReuseWorld) (s : ContainerState)
    (hr : s.restarting = false) (hp : s.paused = false) (hs : s.status = "exited") :
    (repairForReuse w s).2 = [Action.start] := by
  unfold repairForReuse checkContainerState
  cases w.startErr <;> simp [hp, hr, hs]

theorem repairForReuse_actions_length (w : ReuseWorld) (s : ContainerState) :
    (repairForReuse w s).2.length ≤ 1 := by
  unfold repairForReuse
  split
  · simp
  · split
    · simp
    · split
      · cases w.unpauseErr <;> simp
      · split
        · cases w.startErr <;> simp
        · split <;> simp

theorem reuseContainer_actions_of_transient
    (w : ReuseWorld) (budget : Nat) (e : GoErr)
    (hfail : tryReuse w 0 = .failed e) (hperm : e.isPermanent = false) :
    (reuseContainer w budget).actions = (repairForReuse w (w.stateAt 0)).2 := by
  unfold reuseContainer
  rw [hfail]
  rcases h : repairForReuse w (w.stateAt 0) with ⟨re, acts⟩
  cases re <;> simp [hperm, h]

theorem checkPortBindings_none_iff (expected actual : List (String × List PortBinding)) :
    checkPortBindings expected actual = none ↔
      ∀ pb ∈ expected, ∃ bs, actual.lookup pb.1 = some bs ∧ ∀ b ∈ pb.2, b ∈ bs := by
  induction expected with
  | nil => simp [checkPortBindings]
  | cons hd tl ih =>
    rcases hd with ⟨port, ebs⟩
    simp only [checkPortBindings]
    cases hl : actual.lookup port with
    | none =>
      simp only [hl]
      constructor
      · intro h
        simp at h
      · intro h
        exfalso
        rcases h ⟨port, ebs⟩ (List.mem_cons_self _ _) with ⟨bs, hbs, _⟩
        have hbs2 : actual.lookup port = some bs := hbs
        rw [hl] at hbs2
        cases hbs2
    | some bs0 =>
      cases hf : ebs.find? (fun b => !bs0.contains b) with
      | some b =>
        simp only [hl, hf]
        constructor
        · intro h
          simp at h
        · intro h
          exfalso
          rcases h ⟨port, ebs⟩ (List.mem_cons_self _ _) with ⟨bs, hbs, hall⟩
          have hbs2 : actual.lookup port = some bs := hbs
          rw [hl] at hbs2
          injection hbs2 with hbs2
          subst hbs2
          have hbmem : b ∈ ebs := List.mem_of_find?_eq_some hf
          have hbp := List.find?_some hf
          have hin : b ∈ bs0 := hall b hbmem
          simp [List.contains, List.elem_iff, hin] at hbp
      | none =>
        simp only [hl, hf, ih]
        constructor
        · intro h pb hpb
          rcases List.mem_cons.mp hpb with hpb | hpb
          · subst hpb
            refine ⟨bs0, hl, ?_⟩
            intro b hb
            have hnb := List.find?_eq_none.mp hf b hb
            simpa [List.contains, List.elem_iff] using hnb
          · exact h pb hpb
        · intro h pb hpb
          exact h pb (List.mem_cons_of_mem _ hpb)

theorem defaultCheck_of_image_eq (c : ContainerConfig) (o : CandidateOptions)
    (himg : c.image = o.repository ++ ":" ++ o.tag) :
    defaultContainerConfigCheck c o =
      match o.exposedPorts.find? (fun q => !c.exposedPorts.contains q) with
      | some p => some (exposedPortErr p)
      | none =>
        match checkPortBindings o.portBindings c.portBindings with
        | some e => some (GoErr.wrap "failed to checkPortBindings" e)
        | none => none := by
  unfold defaultContainerConfigCheck
  simp [himg]

theorem defaultCheck_of_image_ne (c : ContainerConfig) (o : CandidateOptions)
    (himg : c.image ≠ o.repository ++ ":" ++ o.tag) :
    defaultContainerConfigCheck c o =
      some (imageMismatchErr c.image (o.repository ++ ":" ++ o.tag)) := by
  have hbne := bne_iff_ne.mpr himg
  unfold defaultContainerConfigCheck
  simp [hbne]

theorem wrap_beq_base (m : String) (e : GoErr) (s : String) :
    (GoErr.wrap m e == GoErr.base s) = false := by
  simp

theorem probeRetryV5_all_fail (op : Nat → Option GoErr) (es : Nat → GoErr)
    (hop : ∀ i, op i = some (es i)) :
    ∀ fuel start, 0 < fuel → probeRetryV5 op start fuel = some (es (start + fuel - 1)) := by
  intro fuel
  induction fuel with
  | zero => intro start h; exact absurd h (lt_irrefl 0)
  | succ f ih =>
    intro start _
    rw [probeRetryV5, hop start]
    by_cases hf : f = 0
    · subst hf
      simp
    · have hf2 : (f == 0) = false := by simpa using hf
      have hidx : start + 1 + f - 1 = start + (f + 1) - 1 := by omega
      simp only [hf2, Bool.false_eq_true, if_false]
      rw [ih (start + 1) (by omega), hidx]

theorem probeRetryV4_all_fail (op : Nat → Option GoErr) (es : Nat → GoErr)
    (hop : ∀ i, op i = some (es i)) (hnp : ∀ i, (es i).isPermanent = false) :
    ∀ fuel start, 0 < fuel →
      probeRetryV4 op start fuel = (some (es (start + fuel - 1)), true) := by
  intro fuel
  induction fuel with
  | zero => intro start h; exact absurd h (lt_irrefl 0)
  | succ f ih =>
    intro start _
    rw [probeRetryV4, hop start]
    by_cases hf : f = 0
    · subst hf
      simp [hnp start]
    · have hf2 : (f == 0) = false := by simpa using hf
      have hidx : start + 1 + f - 1 = start + (f + 1) - 1 := by omega
      simp only [hnp start, Bool.false_eq_true, if_false, hf2]
      rw [ih (start + 1) (by omega), hidx]

theorem retryGoLoop_all_fail (op : Nat → Option GoErr) (es : Nat → GoErr)
    (hop : ∀ i, op i = some (es i)) (hnp : ∀ i, (es i).isPermanent = false) :
    ∀ fuel start prev, 2 ≤ fuel →
      retryGoLoop op prev start fuel =
        (some (es (start + fuel - 1)), some (es (start + fuel - 2))) := by
  intro fuel
  induction fuel with
  | zero => intro start prev h; omega
  | succ f ih =>
    intro start prev h2
    rw [retryGoLoop, hop start]
    have hf : f ≠ 0 := by omega
    have hf2 : (f == 0) = false := by simpa using hf
    simp only [hnp start, Bool.false_eq_true, if_false, hf2]
    by_cases hge : 2 ≤ f
    · have e1 : start + 1 + f - 1 = start + (f + 1) - 1 := by omega
      have e2 : start + 1 + f - 2 = start + (f + 1) - 2 := by omega
      rw [ih (start + 1) (some (es start)) hge, e1, e2]
    · have hf1 : f = 1 := by omega
      subst hf1
      rw [retryGoLoop, hop (start + 1)]
      simp [hnp (start + 1)]

theorem retryGoLoop_success (op : Nat → Option GoErr) :
    ∀ k fuel start prev, k < fuel → op (start + k) = none →
      (∀ j < k, ∃ e, op (start + j) = some e ∧ e.isPermanent = false) →
      (retryGoLoop op prev start fuel).1 = none := by
  intro k
  induction k with
  | zero =>
    intro fuel start prev hk hnone _
    match fuel, hk with
    | f + 1, _ =>
      rw [retryGoLoop]
      simp only [Nat.add_zero] at hnone
      rw [hnone]
  | succ k ih =>
    intro fuel start prev hk hnone hprev
    match fuel, hk with
    | f + 1, _ =>
      rw [retryGoLoop]
      rcases hprev 0 (Nat.succ_pos k) with ⟨e, he, hep⟩
      simp only [Nat.add_zero] at he
      rw [he]
      have hf : f ≠ 0 := by omega
      have hf2 : (f == 0) = false := by simpa using hf
      simp only [hep, Bool.false_eq_true, if_false, hf2]
      have hnone2 : op (start + 1 + k) = none := by
        have : start + 1 + k = start + (k + 1) := by omega
        rw [this]
        exact hnone
      refine ih f (start + 1) (some e) (by omega) hnone2 ?_
      intro j hj
      have : start + 1 + j = start + (j + 1) := by omega
      rw [this]
      exact hprev (j + 1) (by omega)

/-! ## Claim theorems -/

/-- Claim C1 — when the first reuse attempt fails for a non-permanent
reason, the single repair step issues exactly the corrective action the
pre-check lifecycle state determines (Paused: one unpause; Exited: one
start; Restarting: none) before the backoff retry loop, whose attempts only
re-run the check and never issue another corrective action; the whole call
issues at most one corrective action. -/
theorem reuse_single_corrective_action
    (w : ReuseWorld) (budget : Nat) (e : GoErr)
    (hfail : tryReuse w 0 = .failed e) (hperm : e.isPermanent = false) :
    ((w.stateAt 0).restarting = true → (reuseContainer w budget).actions = [])
    ∧ ((w.stateAt 0).restarting = false → (w.stateAt 0).paused = true →
        (reuseContainer w budget).actions = [Action.unpause])
    ∧ ((w.stateAt 0).restarting = false → (w.stateAt 0).paused = false →
        (w.stateAt 0).status = "exited" →
        (reuseContainer w budget).actions = [Action.start])
    ∧ (reuseContainer w budget).actions.length ≤ 1 := by
  have hact := reuseContainer_actions_of_transient w budget e hfail hperm
  refine ⟨?_, ?_, ?_, ?_⟩
  · intro h
    rw [hact, repairForReuse_actions_restarting _ _ h]
  · intro hr hp
    rw [hact, repairForReuse_actions_paused _ _ hr hp]
  · intro hr hp hs
    rw [hact, repairForReuse_actions_exited _ _ hr hp hs]
  · rw [hact]
    exact repairForReuse_actions_length _ _

/-- Witness for C1: a compatible paused existing container is unpaused
exactly once, and the reuse succeeds once it reports Running. -/
theorem reuse_single_corrective_action_witness :
    tryReuse pausedWorld 0 = .failed pausedTryErr
    ∧ pausedTryErr.isPermanent = false
    ∧ (reuseContainer pausedWorld 3).actions = [Action.unpause]
    ∧ (reuseContainer pausedWorld 3).result = none := by
  refine ⟨by decide, by decide, ?_, by decide⟩
  exact (reuse_single_corrective_action pausedWorld 3 pausedTryErr (by decide)
    (by decide)).2.1 (by decide) (by decide)

/-- Counterexample to claim C2 — a Paused existing container whose
configuration conflicts with the candidate request is nevertheless
unpaused: the state check fails first, so the first attempt never reaches
the compatibility checks, and the repair step then issues the corrective
action. -/
theorem config_conflict_still_corrected_cex :
    firstConfigErr conflictingPausedWorld.configChecks = some (.base "other image")
    ∧ (reuseContainer conflictingPausedWorld 3).actions = [Action.unpause] := by
  decide

/-- Claim C2 as amended — the compatibility checks run only once the
lifecycle-state check passes: for an existing container in the acceptable
(Running) state whose configuration conflicts, the failure is permanent
(tagged `ErrReuseContainerConflict`), no corrective action is issued, and
no retry happens; for a Paused or Exited container the corrective action is
issued before any compatibility check is evaluated. -/
theorem config_check_permanent_when_state_acceptable
    (w : ReuseWorld) (budget : Nat) (ce : GoErr)
    (hfound : w.found = true)
    (hstate : checkContainerState (w.stateAt 0) = none)
    (hconf : firstConfigErr w.configChecks = some ce) :
    (reuseContainer w budget).actions = []
    ∧ (reuseContainer w budget).attempts = 1
    ∧ errIs (reuseContainer w budget).result ErrReuseContainerConflict = true := by
  have htry : tryReuse w 0 =
      .failed (.permanent (.wrap2 "failed to checkContainerConfig" ErrReuseContainerConflict ce)) := by
    simp [tryReuse, hfound, hstate, hconf]
  unfold reuseContainer
  rw [htry]
  simp [GoErr.isPermanent, errIs, GoErr.is, ErrReuseContainerConflict]

/-- Witness for the amended C2: a Running existing container with a
conflicting configuration is rejected permanently, with no corrective
action. -/
theorem config_check_permanent_when_state_acceptable_witness :
    (reuseContainer conflictingRunningWorld 3).actions = []
    ∧ (reuseContainer conflictingRunningWorld 3).attempts = 1
    ∧ errIs (reuseContainer conflictingRunningWorld 3).result ErrReuseContainerConflict = true :=
  config_check_permanent_when_state_acceptable conflictingRunningWorld 3 (.base "other image")
    (by decide) (by decide) (by decide)

/-- Claim C4 — the state classifier returns success for Running; transient,
retryable errors for Paused, Exited and Restarting; an error matching the
`ErrUnreusableState` sentinel for OOMKilled, Dead and RemovalInProgress
(which the reuse flow turns into a permanent failure: one attempt, no
corrective action, no retry); and a retryable, non-permanent error for any
other state. -/
theorem state_classifier_verdicts (s : ContainerState) :
    (s.running = true → s.paused = false → s.status ≠ "exited" → s.restarting = false →
      checkContainerState s = none)
    ∧ (s.paused = true → isTransientErr (checkContainerState s) = true)
    ∧ (s.paused = false → s.status = "exited" → isTransientErr (checkContainerState s) = true)
    ∧ (s.paused = false → s.status ≠ "exited" → s.restarting = true →
        isTransientErr (checkContainerState s) = true)
    ∧ (s.paused = false → s.status ≠ "exited" → s.restarting = false → s.running = false →
        (s.oomKilled || s.dead || s.removalInProgress) = true →
        errIs (checkContainerState s) ErrUnreusableState = true)
    ∧ (s.paused = false → s.status ≠ "exited" → s.restarting = false → s.running = false →
        s.oomKilled = false → s.dead = false → s.removalInProgress = false →
        isTransientErr (checkContainerState s) = true)
    ∧ (∀ (w : ReuseWorld) (budget : Nat), w.found = true →
        errIs (checkContainerState (w.stateAt 0)) ErrUnreusableState = true →
        (reuseContainer w budget).attempts = 1
          ∧ (reuseContainer w budget).actions = []
          ∧ errIs (reuseContainer w budget).result ErrUnreusableState = true) := by
  refine ⟨?_, ?_, ?_, ?_, ?_, ?_, ?_⟩
  · intro hrun hp hs hr
    simp [checkContainerState, hp, hr, hrun, hs]
  · intro hp
    simp [checkContainerState, hp]
    decide
  · intro hp hs
    simp [checkContainerState, hp, hs]
    decide
  · intro hp hs hr
    simp [checkContainerState, hp, hs, hr]
    decide
  · intro hp hs hr hrun hflag
    simp [checkContainerState, hp, hs, hr, hrun, hflag, errIs]
    decide
  · intro hp hs hr hrun ho hd hrm
    simp [checkContainerState, hp, hs, hr, hrun, ho, hd, hrm]
    decide
  · intro w budget hfound hstate
    rcases hcs : checkContainerState (w.stateAt 0) with _ | e
    · rw [hcs] at hstate
      simp [errIs] at hstate
    · rw [hcs] at hstate
      have he : e.is ErrUnreusableState = true := hstate
      have htry : tryReuse w 0 =
          .failed (.permanent (.wrap "failed to checkContainerState" e)) := by
        simp [tryReuse, hfound, hcs, GoErr.is, he]
      unfold reuseContainer
      rw [htry]
      simp [GoErr.isPermanent, errIs, GoErr.is, he]

/-- Witness for C4: concrete snapshots for the ready, exited and OOM-killed
classes. -/
theorem state_classifier_verdicts_witness :
    checkContainerState runningSnapshot = none
    ∧ isTransientErr (checkContainerState exitedSnapshot) = true
    ∧ errIs (checkContainerState oomSnapshot) ErrUnreusableState = true := by
  refine ⟨?_, ?_, ?_⟩
  · exact (state_classifier_verdicts runningSnapshot).1 (by decide) (by decide) (by decide)
      (by decide)
  · exact (state_classifier_verdicts exitedSnapshot).2.2.1 (by decide) (by decide)
  · exact (state_classifier_verdicts oomSnapshot).2.2.2.2.1 (by decide) (by decide) (by decide)
      (by decide) (by decide)

/-- Claim C3 — the default compatibility check compares, in order and
short-circuiting on the first mismatch: image:tag string equality; every
candidate exposed port present in the existing exposed-port set; and for
every candidate port binding an equal binding (host IP and host port) among
the existing bindings for that container port, the existing container being
allowed additional bindings; env and cmd are not compared, and only the
first mismatched dimension is reported. -/
theorem default_config_check_dimensions (c : ContainerConfig) (o : CandidateOptions) :
    (defaultContainerConfigCheck c o = none ↔
      (c.image = o.repository ++ ":" ++ o.tag
        ∧ (∀ p ∈ o.exposedPorts, p ∈ c.exposedPorts)
        ∧ ∀ pb ∈ o.portBindings, ∃ bs, c.portBindings.lookup pb.1 = some bs
            ∧ ∀ b ∈ pb.2, b ∈ bs))
    ∧ (c.image ≠ o.repository ++ ":" ++ o.tag →
        defaultContainerConfigCheck c o =
          some (imageMismatchErr c.image (o.repository ++ ":" ++ o.tag)))
    ∧ (∀ p, c.image = o.repository ++ ":" ++ o.tag →
        o.exposedPorts.find? (fun q => !c.exposedPorts.contains q) = some p →
        defaultContainerConfigCheck c o = some (exposedPortErr p))
    ∧ (∀ env2 cmd2,
        defaultContainerConfigCheck c { o with env := env2, cmd := cmd2 }
          = defaultContainerConfigCheck c o) := by
  refine ⟨?_, ?_, ?_, ?_⟩
  · by_cases himg : c.image = o.repository ++ ":" ++ o.tag
    · rw [defaultCheck_of_image_eq c o himg]
      cases hfind : o.exposedPorts.find? (fun q => !c.exposedPorts.contains q) with
      | some p =>
        simp only [hfind]
        constructor
        · intro h
          simp at h
        · intro h
          exfalso
          have hpmem : p ∈ o.exposedPorts := List.mem_of_find?_eq_some hfind
          have hp := List.find?_some hfind
          have hin : p ∈ c.exposedPorts := h.2.1 p hpmem
          simp [List.contains, List.elem_iff, hin] at hp
      | none =>
        have hexp : ∀ p ∈ o.exposedPorts, p ∈ c.exposedPorts := by
          intro p hp
          have := List.find?_eq_none.mp hfind p hp
          simpa [List.contains, List.elem_iff] using this
        simp only [hfind]
        cases hcpb : checkPortBindings o.portBindings c.portBindings with
        | some e =>
          simp only [hcpb]
          constructor
          · intro h
            simp at h
          · intro h
            have := (checkPortBindings_none_iff o.portBindings c.portBindings).mpr h.2.2
            rw [hcpb] at this
            cases this
        | none =>
          simp only [hcpb]
          exact iff_of_true trivial
            ⟨himg, hexp, (checkPortBindings_none_iff o.portBindings c.portBindings).mp hcpb⟩
    · rw [defaultCheck_of_image_ne c o himg]
      constructor
      · intro h
        simp at h
      · intro h
        exact absurd h.1 himg
  · intro himg
    exact defaultCheck_of_image_ne c o himg
  · intro p himg hfind
    rw [defaultCheck_of_image_eq c o himg]
    simp only [hfind]
  · intro env2 cmd2
    rfl

/-- Witness for C3: a compatible superset-binding pair passes, and a tag
mismatch reports the image dimension. -/
theorem default_config_check_dimensions_witness :
    defaultContainerConfigCheck sampleContainerConfig mismatchCandidate =
      some (imageMismatchErr "busybox:latest" "busybox:1.36")
    ∧ defaultContainerConfigCheck sampleContainerConfig sampleCandidate = none := by
  constructor
  · exact (default_config_check_dimensions sampleContainerConfig mismatchCandidate).2.1
      (by decide)
  · refine (default_config_check_dimensions sampleContainerConfig sampleCandidate).1.mpr
      ⟨by decide, by decide, ?_⟩
    intro pb hpb
    rcases List.mem_singleton.mp hpb with rfl
    exact ⟨[⟨"0.0.0.0", "8080"⟩, ⟨"0.0.0.0", "8081"⟩], by decide, by decide⟩

/-- Claim C5 evaluated at the failing input — reuse fails with error A,
RecreateOnErr is set and recreation fails with error B: the orchestrator
returns an error matching A but not B, because the source line
`recreateErr = fmt.Errorf("failed to recreateContainer after reuseContainer err: %w", err)`
overwrites the recreation error with a wrapper of the reuse error before
joining. -/
theorem recreate_join_drops_recreation_error :
    errIs (reuseOrRecreateContainer (some (.base "reuse: daemon glitch"))
        (some (.base "recreate: port busy")) true) (.base "reuse: daemon glitch") = true
    ∧ errIs (reuseOrRecreateContainer (some (.base "reuse: daemon glitch"))
        (some (.base "recreate: port busy")) true) (.base "recreate: port busy") = false := by
  decide

/-- Counterexample to claim C6 — in the current Run orchestrator a probe
that never succeeds exhausts its budget; the container is purged and the
returned error wraps the probe error, but it does not match the
`ErrRetryTimeout` sentinel. -/
theorem run_retry_timeout_sentinel_cex :
    (runProbePhase (fun _ => some (.base "probe refused")) 3).2 = true
    ∧ errIs (runProbePhase (fun _ => some (.base "probe refused")) 3).1
        (.base "probe refused") = true
    ∧ errIs (runProbePhase (fun _ => some (.base "probe refused")) 3).1
        ErrRetryTimeout = false := by
  decide

/-- Claim C6 as amended — when the readiness probe never succeeds within the
budget, the current Run purges the container and returns an error wrapping
the last probe error, which does not match `ErrRetryTimeout` (unless a probe
error itself carried the sentinel); only the deprecated `newWithPool` flow
purges and additionally wraps the `ErrRetryTimeout` sentinel on
exhaustion. -/
theorem probe_budget_exhaustion
    (op : Nat → Option GoErr) (es : Nat → GoErr) (budget : Nat)
    (hop : ∀ i, op i = some (es i)) (hb : 0 < budget) :
    ((runProbePhase op budget).2 = true
      ∧ errIs (runProbePhase op budget).1 (es (budget - 1)) = true)
    ∧ ((∀ i, (es i).is ErrRetryTimeout = false) →
        errIs (runProbePhase op budget).1 ErrRetryTimeout = false)
    ∧ ((∀ i, (es i).isPermanent = false) →
        (newWithPoolProbePhase op budget).2 = true
          ∧ errIs (newWithPoolProbePhase op budget).1 ErrRetryTimeout = true) := by
  have h5 := probeRetryV5_all_fail op es hop budget 0 hb
  simp only [Nat.zero_add] at h5
  refine ⟨?_, ?_, ?_⟩
  · unfold runProbePhase
    rw [h5]
    simp [errIs, GoErr.is]
  · intro hns
    unfold runProbePhase
    rw [h5]
    simpa [errIs, GoErr.is, ErrRetryTimeout] using hns (budget - 1)
  · intro hnp
    have h4 := probeRetryV4_all_fail op es hop hnp budget 0 hb
    simp only [Nat.zero_add] at h4
    unfold newWithPoolProbePhase
    rw [h4]
    constructor
    · simp
    · simp [errIs, GoErr.is, ErrRetryTimeout]

/-- Witness for the amended C6: a probe refusing three attempts exhausts
the budget: the current flow purges and keeps the last probe error, the
deprecated flow reports the `ErrRetryTimeout` sentinel. -/
theorem probe_budget_exhaustion_witness :
    (runProbePhase probeWitnessOp 3).2 = true
    ∧ errIs (runProbePhase probeWitnessOp 3).1 (probeWitnessErrs 2) = true
    ∧ (newWithPoolProbePhase probeWitnessOp 3).2 = true
    ∧ errIs (newWithPoolProbePhase probeWitnessOp 3).1 ErrRetryTimeout = true := by
  have h := probe_budget_exhaustion probeWitnessOp probeWitnessErrs 3
    (fun _ => rfl) (by omega)
  have h3 := h.2.2 (fun _ => rfl)
  exact ⟨h.1.1, h.1.2, h3.1, h3.2⟩

/-- Claim C7 — when every attempt fails (never permanently) and the budget
of at least two attempts is exhausted, the retry primitive returns an error
matching both the final attempt's error and the immediately preceding
attempt's error; when the operation eventually succeeds within the budget,
nil is returned. -/
theorem retry_preserves_previous_error (budget : Nat) :
    (∀ (op : Nat → Option GoErr) (es : Nat → GoErr),
      (∀ i, op i = some (es i)) → (∀ i, (es i).isPermanent = false) → 2 ≤ budget →
      errIs (retryJoin op budget) (es (budget - 1)) = true
        ∧ errIs (retryJoin op budget) (es (budget - 2)) = true)
    ∧ (∀ (op : Nat → Option GoErr) (k : Nat), k < budget → op k = none →
        (∀ j < k, ∃ e, op j = some e ∧ e.isPermanent = false) →
        retryJoin op budget = none) := by
  constructor
  · intro op es hop hnp hb
    have h := retryGoLoop_all_fail op es hop hnp budget 0 none hb
    simp only [Nat.zero_add] at h
    unfold retryJoin
    rw [h]
    constructor <;> simp [errIs, GoErr.is]
  · intro op k hk hnone hprev
    have h : (retryGoLoop op none 0 budget).1 = none := by
      have h0 : op (0 + k) = none := by simpa using hnone
      refine retryGoLoop_success op k budget 0 none hk h0 ?_
      intro j hj
      simpa using hprev j hj
    unfold retryJoin
    rcases hres : retryGoLoop op none 0 budget with ⟨r, p⟩
    rw [hres] at h
    simp only at h
    subst h
    rfl

/-- Witness for C7: three failing attempts yield an error matching the last
two attempt errors; an operation succeeding on its second attempt yields
nil. -/
theorem retry_preserves_previous_error_witness :
    errIs (retryJoin retryWitnessOp 3) (retryWitnessErrs 2) = true
    ∧ errIs (retryJoin retryWitnessOp 3) (retryWitnessErrs 1) = true
    ∧ retryJoin retrySuccOp 3 = none := by
  have h := retry_preserves_previous_error 3
  have h1 := h.1 retryWitnessOp retryWitnessErrs (fun _ => rfl) (fun _ => rfl) (by omega)
  refine ⟨h1.1, h1.2, ?_⟩
  refine h.2 retrySuccOp 1 (by omega) rfl ?_
  intro j hj
  have hj0 : j = 0 := by omega
  subst hj0
  exact ⟨.base "transient", rfl, rfl⟩

/-- Claim C8 evaluated at the failing input — with containers c1 and c2
listed and the removal of c1 failing, the sub-sweep issues removals for
both (no stop on first failure) and accumulates an error matching the
removal failure into its `err` variable, yet its literal `return nil` makes
it — and therefore `Prune` — return nil. -/
theorem prune_aggregates_but_returns_nil :
    (pruneSweep (.ok ["c1", "c2"]) pruneWitnessRemoveErr).removed = ["c1", "c2"]
    ∧ errIs (pruneSweep (.ok ["c1", "c2"]) pruneWitnessRemoveErr).accumulated
        (.base "removal denied") = true
    ∧ (pruneSweep (.ok ["c1", "c2"]) pruneWitnessRemoveErr).returned = none
    ∧ (PruneModel (pruneSweep (.ok ["c1", "c2"]) pruneWitnessRemoveErr).returned
        (pruneSweep (.ok []) pruneWitnessRemoveErr).returned).2 = none := by
  decide

/-- Counterexample to claim C9 — with an empty repository and options
setting both flags, construction is rejected, but the error matches the
`ErrInvalidOptions` sentinel (repository validation runs first), not
`ErrOptionConflict`. -/
theorem both_flags_conflict_sentinel_cex :
    (ApplyRunOptions "" [setReuseOpt, setRemoveOnExistsOpt]).2 ≠ none
    ∧ errIs (ApplyRunOptions "" [setReuseOpt, setRemoveOnExistsOpt]).2
        ErrOptionConflict = false
    ∧ errIs (ApplyRunOptions "" [setReuseOpt, setRemoveOnExistsOpt]).2
        ErrInvalidOptions = true := by
  decide

/-- Claim C9 as amended — options returned without error never carry both
the Reuse and RemoveOnExists flags; when the applied options end with both
flags set, construction is rejected before any container operation, and the
rejection matches `ErrOptionConflict` whenever the final repository field is
nonempty (an empty repository is reported first, as `ErrInvalidOptions`). -/
theorem apply_run_options_flag_exclusion
    (repository : String) (customOpts : List RunOptionFn) :
    (∀ o, ApplyRunOptions repository customOpts = (o, none) →
      ¬(o.reuse = true ∧ o.removeOnExists = true))
    ∧ (∀ o, applyOpts (defaultRunOptions repository) customOpts = .ok o →
        o.reuse = true → o.removeOnExists = true → o.repository ≠ "" →
        errIs (ApplyRunOptions repository customOpts).2 ErrOptionConflict = true
          ∧ ∀ (runPhase : RunOptionsModel → Option GoErr × List String),
              (RunEntry repository customOpts runPhase).2 = []) := by
  constructor
  · intro o h hro
    unfold ApplyRunOptions at h
    rcases happ : applyOpts (defaultRunOptions repository) customOpts with e | o2
    · rw [happ] at h
      injection h with h1 h2
      exact Option.noConfusion h2
    · rw [happ] at h
      have hred : (match validateRunOptions o2 with
          | some e => (zeroRunOptions, some (GoErr.wrap "failed to options.validate" e))
          | none => (o2, none)) = (o, none) := h
      cases hv : validateRunOptions o2 with
      | some e3 =>
        rw [hv] at hred
        injection hred with h1 h2
        exact Option.noConfusion h2
      | none =>
        rw [hv] at hred
        injection hred with h1 h2
        rw [h1] at hv
        rcases hro with ⟨hre, hrm⟩
        by_cases hr : o.repository = ""
        · simp [validateRunOptions, hr] at hv
        · simp [validateRunOptions, hr, hre, hrm] at hv
  · intro o happ hre hrm hrep
    have hrepb : (o.repository == "") = false := beq_eq_false_iff_ne.mpr hrep
    have hv : validateRunOptions o =
        some (.wrap "RemoveOnExists conflicts with Reuse" ErrOptionConflict) := by
      unfold validateRunOptions
      simp [hrepb, hre, hrm]
    have happly : ApplyRunOptions repository customOpts =
        (zeroRunOptions, some (.wrap "failed to options.validate"
          (.wrap "RemoveOnExists conflicts with Reuse" ErrOptionConflict))) := by
      unfold ApplyRunOptions
      simp only [happ, hv]
    constructor
    · rw [happly]
      simp [errIs, GoErr.is, ErrOptionConflict]
    · intro runPhase
      unfold RunEntry
      rw [happly]

/-- Witness for the amended C9: requesting both flags on a nonempty
repository is rejected with `ErrOptionConflict`, and the run entry performs
no container operation. -/
theorem apply_run_options_flag_exclusion_witness :
    errIs (ApplyRunOptions "busybox" [setReuseOpt, setRemoveOnExistsOpt]).2
        ErrOptionConflict = true
    ∧ (RunEntry "busybox" [setReuseOpt, setRemoveOnExistsOpt]
        (fun _ => (none, ["create"]))).2 = [] := by
  have h := (apply_run_options_flag_exclusion "busybox" [setReuseOpt, setRemoveOnExistsOpt]).2
    { defaultRunOptions "busybox" with reuse := true, removeOnExists := true }
    rfl rfl rfl (by decide)
  exact ⟨h.1, h.2 _⟩

/-- Claim C10 — `ApplyRunOptions` is atomic on error: whenever it returns a
non-nil error, the options component of its result is the zero
`RunOptions`, so callers never observe a partially applied configuration. -/
theorem apply_run_options_atomic_on_error
    (repository : String) (customOpts : List RunOptionFn) (o : RunOptionsModel) (e : GoErr)
    (h : ApplyRunOptions repository customOpts = (o, some e)) :
    o = zeroRunOptions := by
  unfold ApplyRunOptions at h
  rcases happ : applyOpts (defaultRunOptions repository) customOpts with e2 | o2
  · rw [happ] at h
    injection h with h1 h2
    exact h1.symm
  · rw [happ] at h
    have hred : (match validateRunOptions o2 with
        | some e3 => (zeroRunOptions, some (GoErr.wrap "failed to options.validate" e3))
        | none => (o2, none)) = (o, some e) := h
    cases hv : validateRunOptions o2 with
    | none =>
      rw [hv] at hred
      injection hred with h1 h2
      exact Option.noConfusion h2
    | some e3 =>
      rw [hv] at hred
      injection hred with h1 h2
      exact h1.symm

/-- Witness for C10: a failing option (like an empty image tag) yields the
zero options. -/
theorem apply_run_options_atomic_on_error_witness :
    (ApplyRunOptions "busybox" [failingOpt]).1 = zeroRunOptions :=
  apply_run_options_atomic_on_error "busybox" [failingOpt] _
    (.wrap "imageTag must not be empty" ErrInvalidOptions) rfl

end Tcontainer
